import Mathlib

/-!
# Verification of the csv-analyst MCP server core (`main.py`)

A shallow embedding of the tabular-data core of the server: the path
sandbox (`_resolve_csv_path`), the process state (`_State`), the filter
evaluator (`filter_rows`), the aggregator (`groupby_aggregate`), the
profiler (`_basic_profile`, `describe_numeric`, `value_counts`,
`preview`, `get_schema`) and the loader/exporter (`load_csv`,
`export_last_result`).

Modelling conventions:
* A pandas `DataFrame` is a header list, a dtype list and a list of rows
  (each row a list of scalar `Value`s).  pandas dtypes are collapsed to
  `numeric` (int64/float64), `boolean` and `object`; `float64` numbers are
  idealized as exact rationals (no claim below depends on rounding).
* Filesystem facts (`exists`/`is_file`, `is_dir`), the result of
  `pd.read_csv`, the success of `to_csv`, the regular-expression engine
  used by `Series.str.contains`, the float square root used by
  `describe`, and the process working directory are supplied by an
  ambient `Env` record, universally quantified in every theorem.
* Paths are lists of name components below the filesystem root;
  `Path.resolve()` is lexical normalization of `.`/`..` (symlinks are not
  modelled), `expanduser` is the identity (no modelled path begins with a
  user reference).
* Python exceptions and `{"ok": False, "error": ...}` returns are both
  modelled as `Except Err` results: the MCP layer reports either one to
  the caller as a structured, recoverable failure.
-/

set_option autoImplicit false

deriving instance DecidableEq for Except

namespace CsvAnalyst

/-- A scalar cell value of a table: the JSON/pandas scalars. -/
inductive Value where
  | str (s : String)
  | int (n : Int)
  | float (q : ℚ)
  | bool (b : Bool)
  | null
  deriving DecidableEq, Repr, Inhabited

/-- Numeric view of a scalar, as Python/numpy comparisons see it
(`True == 1`); `none` for strings and nulls. -/
def numOf : Value → Option ℚ
  | .int n => some (n : ℚ)
  | .float q => some q
  | .bool b => some (if b then 1 else 0)
  | _ => none

/-- pandas column dtypes, collapsed to the three classes the code
distinguishes: numeric (int64/float64), boolean, object/string. -/
inductive Dtype where
  | numeric
  | boolean
  | object
  deriving DecidableEq, Repr, Inhabited

/-- A pandas `DataFrame`: named, dtyped columns over a list of rows.
Column `i` of row `r` is `r.getD i .null`. -/
structure DataFrame where
  headers : List String
  dtypes : List Dtype
  rows : List (List Value)
  deriving DecidableEq, Repr, Inhabited

/-- Index of column `c` (first occurrence, as `df[c]` selects). -/
def DataFrame.colIdx (df : DataFrame) (c : String) : Nat :=
  df.headers.indexOf c

/-- The values of column `c` (`df[c]`), one per row. -/
def DataFrame.col (df : DataFrame) (c : String) : List Value :=
  df.rows.map (fun r => r.getD (df.colIdx c) .null)

/-- The dtype of column `c`. -/
def DataFrame.dtypeOf (df : DataFrame) (c : String) : Dtype :=
  df.dtypes.getD (df.colIdx c) .object

/-! ## Paths and the sandbox -/

/-- A user-supplied path: absolute, or relative (to the base directory
for `_resolve_csv_path`/`export_last_result`, to the process working
directory for `set_base_directory`). -/
structure UserPath where
  isAbs : Bool
  comps : List String
  deriving DecidableEq, Repr

/-- Lexical `Path.resolve()`: fold the components over a start directory,
`..` moving up (stopping at the root, as POSIX does) and `.`/empty
components ignored. -/
def normalizePath (start : List String) (comps : List String) : List String :=
  comps.foldl
    (fun acc c =>
      if c = ".." then acc.dropLast
      else if c = "." ∨ c = "" then acc
      else acc ++ [c])
    start

/-- `(start / p).resolve()` when `p` is relative, `p.resolve()` when
absolute. -/
def resolveUnder (start : List String) (p : UserPath) : List String :=
  if p.isAbs then normalizePath [] p.comps else normalizePath start p.comps

/-- `str(p)` for an absolute path. -/
def strOfPath (p : List String) : String :=
  "/" ++ String.intercalate "/" p

/-- Python `str.lower`, per-character case mapping. -/
def lowerStr (s : String) : String :=
  ⟨s.data.map Char.toLower⟩

/-- Python `str.startswith`. -/
def strStartsWith (s p : String) : Bool :=
  p.data.isPrefixOf s.data

/-- Python `str.endswith`. -/
def strEndsWith (s p : String) : Bool :=
  p.data.isSuffixOf s.data

/-- Python string `<`: code-point lexicographic. -/
def charListLt : List Char → List Char → Bool
  | [], [] => false
  | [], _ :: _ => true
  | _ :: _, [] => false
  | a :: as, b :: bs =>
    if a < b then true
    else if b < a then false
    else charListLt as bs

/-- `str(p).lower().endswith(".csv")`. -/
def endsCsvLower (p : List String) : Bool :=
  strEndsWith (lowerStr (strOfPath p)) ".csv"

/-- The ambient environment: filesystem facts, external library
primitives, and the working directory.  Every theorem quantifies over
it. -/
structure Env where
  /-- `p.exists() and p.is_file()`: `p` names an existing regular file. -/
  isFile : List String → Bool
  /-- `p.exists() and p.is_dir()`: `p` names an existing directory. -/
  isDir : List String → Bool
  /-- The outcome of `pd.read_csv(path, sep=delimiter, encoding=...)`:
  a parsed table, or a raised parse/IO error. -/
  readCsv : List String → String → Option String → Except Unit DataFrame
  /-- Whether `DataFrame.to_csv(path)` succeeds at this destination. -/
  writeOk : List String → Bool
  /-- Whether `re.compile(pat)` succeeds (`Series.str.contains` treats
  its needle as a regular expression). -/
  reValid : String → Bool
  /-- `re.search(pat, s)` produced a match (only consulted on patterns
  with `reValid pat = true`). -/
  reSearch : String → String → Bool
  /-- Float square root used by `describe`'s `std`, abstract since exact
  square roots leave ℚ.  Applied to the sample variance. -/
  sqrtQ : ℚ → ℚ
  /-- The process working directory (used by `Path(...).resolve()` on
  relative paths in `set_base_directory`). -/
  cwd : List String

/-- The process state `_State`: the loaded table, the last result, the
source path and the sandbox root. -/
structure State where
  csv_path : Option (List String)
  df : Option DataFrame
  last_result : Option DataFrame
  base_dir : List String
  deriving DecidableEq, Repr

/-- The error outcomes of the tools: raised Python exceptions and
`{"ok": False}` returns alike. -/
inductive Err where
  /-- `ValueError("Only .csv files are allowed.")` -/
  | invalidPath
  /-- `FileNotFoundError` from `_resolve_csv_path` -/
  | notFound
  /-- `PermissionError` (load) / access-denied result (export) -/
  | accessDenied
  /-- `FileNotFoundError` from `set_base_directory` -/
  | dirNotFound
  /-- `RuntimeError("No CSV loaded. Call load_csv first.")` -/
  | notLoaded
  /-- `pd.read_csv` raised -/
  | readFailed
  /-- `preview`: `Unknown columns: ...` -/
  | unknownColumns (cs : List String)
  /-- `value_counts`: `Unknown column: ...` -/
  | unknownColumn (c : String)
  /-- `filter_rows`: `logic must be 'and' or 'or'` -/
  | badLogic
  /-- `filter_rows`: `Unknown or missing column in filter: ...` -/
  | unknownFilterColumn (c : Option String)
  /-- `filter_rows`: `Comparison failed for ...` -/
  | comparisonFailed
  /-- `re.error` raised by an invalid `contains` pattern -/
  | regexError
  /-- `filter_rows`: `For op='in', value must be a list.` -/
  | inValueNotList
  /-- `filter_rows`: `Unsupported op: ...` -/
  | unsupportedOp (op : Option String)
  /-- `groupby_aggregate`: `Unknown group columns: ...` -/
  | unknownGroupColumns (cs : List String)
  /-- `groupby_aggregate`: `Unknown agg column: ...` -/
  | unknownAggColumn (c : Option String)
  /-- `groupby_aggregate`: `Unsupported agg: ...` -/
  | unsupportedAgg (fn : Option String)
  /-- `ValueError("No group keys passed!")` from `df.groupby([])` -/
  | noGroupKeys
  /-- `ValueError("Cannot describe a DataFrame without columns")` -/
  | describeNoColumns
  /-- `ValueError("No objects to concatenate")` from
  `df.describe(include="number")` with no numeric column -/
  | noNumericColumns
  /-- `export_last_result`: `No last_result available. ...` -/
  | noResult
  /-- `DataFrame.to_csv` raised -/
  | writeFailed
  deriving DecidableEq, Repr

/-- `_resolve_csv_path(user_path)` (main.py:35-64): expand and resolve,
then check, in this order: the `.csv` extension (else `ValueError`),
existence as a regular file (else `FileNotFoundError`), and containment
under the base directory via `relative_to` (else `PermissionError`). -/
def _resolve_csv_path (env : Env) (base_dir : List String) (user_path : UserPath) :
    Except Err (List String) :=
  let p := resolveUnder base_dir user_path
  if ¬ endsCsvLower p then .error .invalidPath
  else if ¬ env.isFile p then .error .notFound
  else if base_dir.isPrefixOf p then .ok p
  else .error .accessDenied

/-! ## The filter evaluator (`filter_rows`, main.py:227-314) -/

/-- A filter value: a JSON scalar or a JSON list (`f.get("value")`). -/
inductive FilterVal where
  | scalar (v : Value)
  | vlist (vs : List Value)
  deriving DecidableEq, Repr

/-- A filter descriptor.  `column`/`op` are `f.get(...)` results (absent
keys give `none`); `case_sensitive` is the already-truthified
`bool(f.get("case_sensitive", False))`. -/
structure Filter where
  column : Option String
  op : Option String
  value : FilterVal
  case_sensitive : Bool
  deriving DecidableEq, Repr

/-- Scalar equality as pandas `eq` evaluates it per element: numeric
values compare numerically (`True == 1`), strings compare as strings,
nulls and cross-type pairs are unequal (pandas returns all-`False`
rather than raising for mismatched dtypes). -/
def rowEq (c v : Value) : Bool :=
  match numOf c, numOf v with
  | some a, some b => a = b
  | _, _ =>
    match c, v with
    | .str s, .str t => s = t
    | _, _ => false

/-- An ordering comparison on rationals, keyed by the operator token. -/
def applyOrdQ (op : String) (a b : ℚ) : Bool :=
  if op = ">" then a > b
  else if op = ">=" then a ≥ b
  else if op = "<" then a < b
  else a ≤ b

/-- An ordering comparison on strings (Python compares strings
lexicographically by code point, as Lean does). -/
def applyOrdS (op : String) (a b : String) : Bool :=
  if op = ">" then charListLt b.data a.data
  else if op = ">=" then ! charListLt a.data b.data
  else if op = "<" then charListLt a.data b.data
  else ! charListLt b.data a.data

/-- One Python-level ordering comparison between two scalars, as numpy
applies it inside an object column: numeric with numeric, string with
string; any other pair (including `None`) raises `TypeError`. -/
def pyOrdCell (op : String) (c v : Value) : Except Unit Bool :=
  match numOf c, numOf v with
  | some a, some b => .ok (applyOrdQ op a b)
  | _, _ =>
    match c, v with
    | .str s, .str t => .ok (applyOrdS op s t)
    | _, _ => .error ()

/-- `series.eq(val)` (and, negated, `series.ne(val)`).  A list value of
mismatching length raises; a matching list compares positionally. -/
def seriesEq (cells : List Value) (v : FilterVal) : Except Unit (List Bool) :=
  match v with
  | .scalar v => .ok (cells.map (fun c => rowEq c v))
  | .vlist vs =>
    if vs.length = cells.length then
      .ok ((cells.zip vs).map (fun p => rowEq p.1 p.2))
    else .error ()

/-- `series.gt/ge/lt/le(val)`.  On a numeric or boolean column a
non-numeric scalar raises at array level (`Invalid comparison between
dtype=int64 and str`) while null cells compare as NaN (always false);
on an object column the comparison is per element and raises on the
first incomparable pair (nulls included). -/
def seriesOrd (dt : Dtype) (op : String) (cells : List Value) (v : FilterVal) :
    Except Unit (List Bool) :=
  match v with
  | .scalar v =>
    match dt with
    | .numeric | .boolean =>
      match numOf v with
      | none => .error ()
      | some b =>
        .ok (cells.map (fun c =>
          match numOf c with
          | some a => applyOrdQ op a b
          | none => false))
    | .object => cells.mapM (fun c => pyOrdCell op c v)
  | .vlist vs =>
    if vs.length = cells.length then
      (cells.zip vs).mapM (fun p =>
        match dt, numOf p.1, numOf p.2 with
        | .numeric, none, some _ => .ok false
        | .boolean, none, some _ => .ok false
        | _, _, _ => pyOrdCell op p.1 p.2)
    else .error ()

/-- A decimal rendering of a float64 value (the exact binary64 repr is
not modelled; no claim inspects these strings). -/
def floatRepr (q : ℚ) : String :=
  if q.den = 1 then toString q.num ++ ".0" else toString q

/-- `astype("string")`: each cell rendered as text, nulls staying null
(`<NA>`). -/
def toStringCell : Value → Option String
  | .null => none
  | .str s => some s
  | .int n => some (toString n)
  | .bool b => some (if b then "True" else "False")
  | .float q => some (floatRepr q)

/-- Python `repr` of a scalar (used by `str(val)` on list values). -/
def pyReprV : Value → String
  | .null => "None"
  | .str s => "\x27" ++ s ++ "\x27"
  | .int n => toString n
  | .bool b => if b then "True" else "False"
  | .float q => floatRepr q

/-- `str(val)` for a filter value. -/
def pyStrF : FilterVal → String
  | .scalar (.str s) => s
  | .scalar v => pyReprV v
  | .vlist vs => "[" ++ String.intercalate ", " (vs.map pyReprV) ++ "]"

/-- The `na=False` convention: apply a per-cell test, with null cells
evaluating to no-match. -/
def naApply (g : String → Bool) : Option String → Bool
  | none => false
  | some t => g t

/-- The three string operators applied to an already-cased needle and
column (main.py:288-293): `contains` is `re.search` on each non-null
cell (pandas treats the needle as a regular expression and raises on an
invalid pattern), `startswith`/`endswith` are plain prefix/suffix tests;
`na=False` maps null cells to no-match. -/
def strOpMask (env : Env) (op : String) (needle : String)
    (cells : List (Option String)) : Except Err (List Bool) :=
  if op = "contains" then
    if env.reValid needle then
      .ok (cells.map (naApply (fun t => env.reSearch needle t)))
    else .error .regexError
  else if op = "startswith" then
    .ok (cells.map (naApply (fun t => strStartsWith t needle)))
  else
    .ok (cells.map (naApply (fun t => strEndsWith t needle)))

/-- The string-operator branch of `filter_rows` (main.py:281-293):
`s = series.astype("string")`, `needle = str(val)`, lower both when not
case-sensitive, then apply the operator. -/
def evalStrFilter (env : Env) (op : String) (cells : List Value)
    (val : FilterVal) (case_sensitive : Bool) : Except Err (List Bool) :=
  let s := cells.map toStringCell
  let needle := pyStrF val
  let s := if case_sensitive then s else s.map (Option.map lowerStr)
  let needle := if case_sensitive then needle else lowerStr needle
  strOpMask env op needle s

/-- Membership as `Series.isin` tests it: value equality, with null
matching null. -/
def inEq (c v : Value) : Bool :=
  match c, v with
  | .null, .null => true
  | _, _ => rowEq c v

/-- Evaluate one filter descriptor to a row mask (the body of the loop
in main.py:256-301).  `if not col or col not in df.columns` treats a
missing or empty column name as falsy. -/
def evalFilter (env : Env) (df : DataFrame) (f : Filter) : Except Err (List Bool) :=
  match f.column with
  | none => .error (.unknownFilterColumn none)
  | some c =>
    if c = "" ∨ c ∉ df.headers then .error (.unknownFilterColumn (some c))
    else
      let cells := df.col c
      if f.op = some "==" then
        (seriesEq cells f.value).mapError (fun _ => .comparisonFailed)
      else if f.op = some "!=" then
        ((seriesEq cells f.value).map (List.map (! ·))).mapError
          (fun _ => .comparisonFailed)
      else if f.op = some ">" then
        (seriesOrd (df.dtypeOf c) ">" cells f.value).mapError
          (fun _ => .comparisonFailed)
      else if f.op = some ">=" then
        (seriesOrd (df.dtypeOf c) ">=" cells f.value).mapError
          (fun _ => .comparisonFailed)
      else if f.op = some "<" then
        (seriesOrd (df.dtypeOf c) "<" cells f.value).mapError
          (fun _ => .comparisonFailed)
      else if f.op = some "<=" then
        (seriesOrd (df.dtypeOf c) "<=" cells f.value).mapError
          (fun _ => .comparisonFailed)
      else if f.op = some "contains" then
        evalStrFilter env "contains" cells f.value f.case_sensitive
      else if f.op = some "startswith" then
        evalStrFilter env "startswith" cells f.value f.case_sensitive
      else if f.op = some "endswith" then
        evalStrFilter env "endswith" cells f.value f.case_sensitive
      else if f.op = some "in" then
        match f.value with
        | .vlist vs => .ok (cells.map (fun c => vs.any (inEq c)))
        | .scalar _ => .error .inValueNotList
      else .error (.unsupportedOp f.op)

/-- `mask = m` on the first filter, then `mask & m` / `mask | m`
(main.py:303-306). -/
def combineMask (logic : String) (acc : Option (List Bool)) (m : List Bool) : List Bool :=
  match acc with
  | none => m
  | some acc => if logic = "and" then acc.zipWith and m else acc.zipWith or m

/-- The filter loop: evaluate descriptors left to right, short-circuit
on the first error, fold masks with the chosen logic. -/
def buildMask (env : Env) (df : DataFrame) (logic : String) :
    List Filter → Option (List Bool) → Except Err (Option (List Bool))
  | [], mask => .ok mask
  | f :: fs, mask => do
    let m ← evalFilter env df f
    buildMask env df logic fs (some (combineMask logic mask m))

/-- `df[mask]`: keep the rows whose mask bit is set. -/
def maskFilter {α : Type} : List α → List Bool → List α
  | [], _ => []
  | _, [] => []
  | a :: as, b :: bs => if b then a :: maskFilter as bs else maskFilter as bs

/-- `df[mask]` on a full frame. -/
def applyMaskDf (df : DataFrame) (m : List Bool) : DataFrame :=
  { df with rows := maskFilter df.rows m }

/-- `_df_to_rows(df, limit)` (main.py:73-77): empty for a non-positive
limit, else the first `limit` rows as records. -/
def _df_to_rows (df : DataFrame) (limit : Int) : List (List Value) :=
  if limit ≤ 0 then [] else df.rows.take limit.toNat

/-- Success payload of `filter_rows`. -/
structure FilterOk where
  row_count : Nat
  rows : List (List Value)
  deriving DecidableEq, Repr

/-- `filter_rows(filters, logic, limit)` (main.py:227-314). -/
def filter_rows (env : Env) (st : State) (filters : List Filter)
    (logic : String) (limit : Int) : Except Err FilterOk × State :=
  match st.df with
  | none => (.error .notLoaded, st)
  | some df =>
    if logic ≠ "and" ∧ logic ≠ "or" then (.error .badLogic, st)
    else
      match buildMask env df logic filters none with
      | .error e => (.error e, st)
      | .ok mask =>
        let out := match mask with
          | none => df
          | some m => applyMaskDf df m
        (.ok { row_count := out.rows.length, rows := _df_to_rows out limit },
          { st with last_result := some out })

/-! ## Profiler, loader, aggregator, exporter -/

/-- `head(limit)` on a list, with pandas semantics for negative limits
(`head(-n)` drops the last `n`). -/
def pdHead {α : Type} (limit : Int) (xs : List α) : List α :=
  if 0 ≤ limit then xs.take limit.toNat
  else xs.take (xs.length - (-limit).toNat)

/-- The dtype string reported in a profile.  (int64 and float64 are
collapsed into one numeric class; we report the wider name.) -/
def dtypeName : Dtype → String
  | .numeric => "float64"
  | .boolean => "bool"
  | .object => "object"

/-- `_basic_profile(df)` (main.py:80-87): shape, columns, dtypes and
per-column null counts (aligned with `columns`). -/
structure Profile where
  row_count : Nat
  column_count : Nat
  columns : List String
  dtypes : List String
  missing_by_column : List Nat
  deriving DecidableEq, Repr

def _basic_profile (df : DataFrame) : Profile :=
  { row_count := df.rows.length
    column_count := df.headers.length
    columns := df.headers
    dtypes := df.dtypes.map dtypeName
    missing_by_column :=
      df.headers.map (fun c => (df.col c).countP (· == Value.null)) }

/-- Success payload of `set_base_directory`/`get_base_directory`. -/
structure BaseOk where
  base_dir : List String
  deriving DecidableEq, Repr

/-- `set_base_directory(path)` (main.py:90-104): resolve (a relative
path resolves against the working directory), require an existing
directory, then replace the sandbox root. -/
def set_base_directory (env : Env) (st : State) (path : UserPath) :
    Except Err BaseOk × State :=
  let base := resolveUnder env.cwd path
  if ¬ env.isDir base then (.error .dirNotFound, st)
  else (.ok { base_dir := base }, { st with base_dir := base })

/-- `get_base_directory()` (main.py:107-113). -/
def get_base_directory (st : State) : Except Err BaseOk × State :=
  (.ok { base_dir := st.base_dir }, st)

/-- Success payload of `load_csv`. -/
structure LoadOk where
  csv_path : List String
  profile : Profile
  preview : List (List Value)
  deriving DecidableEq, Repr

/-- `load_csv(path, delimiter, encoding, sample_rows)`
(main.py:116-151): resolve through the sandbox, parse, then replace the
current table, record the source path and clear `last_result`. -/
def load_csv (env : Env) (st : State) (path : UserPath) (delimiter : String)
    (encoding : Option String) (sample_rows : Int) : Except Err LoadOk × State :=
  match _resolve_csv_path env st.base_dir path with
  | .error e => (.error e, st)
  | .ok csv_path =>
    match env.readCsv csv_path delimiter encoding with
    | .error _ => (.error .readFailed, st)
    | .ok df =>
      (.ok { csv_path := csv_path, profile := _basic_profile df,
             preview := _df_to_rows df sample_rows },
        { st with csv_path := some csv_path, df := some df, last_result := none })

/-- Success payload of `get_schema`. -/
structure SchemaOk where
  csv_path : Option (List String)
  profile : Profile
  deriving DecidableEq, Repr

/-- `get_schema()` (main.py:154-161). -/
def get_schema (st : State) : Except Err SchemaOk × State :=
  match st.df with
  | none => (.error .notLoaded, st)
  | some df => (.ok { csv_path := st.csv_path, profile := _basic_profile df }, st)

/-- `df[columns]`: column projection in the requested order. -/
def selectCols (df : DataFrame) (cols : List String) : DataFrame :=
  { headers := cols
    dtypes := cols.map df.dtypeOf
    rows := df.rows.map (fun r => cols.map (fun c => r.getD (df.colIdx c) .null)) }

/-- Success payload of `preview`. -/
structure PreviewOk where
  rows : List (List Value)
  deriving DecidableEq, Repr

/-- `preview(rows, columns)` (main.py:164-186).  `if columns:` treats
`None` and `[]` alike (no projection). -/
def preview (st : State) (rows : Int) (columns : Option (List String)) :
    Except Err PreviewOk × State :=
  match st.df with
  | none => (.error .notLoaded, st)
  | some df =>
    match columns with
    | none =>
      (.ok { rows := _df_to_rows df rows }, { st with last_result := some df })
    | some [] =>
      (.ok { rows := _df_to_rows df rows }, { st with last_result := some df })
    | some cs =>
      let missing := cs.filter (· ∉ df.headers)
      if missing ≠ [] then (.error (.unknownColumns missing), st)
      else
        let out := selectCols df cs
        (.ok { rows := _df_to_rows out rows }, { st with last_result := some out })

/-- Insert into an ascending-sorted list of rationals. -/
def insertAsc (x : ℚ) : List ℚ → List ℚ
  | [] => [x]
  | y :: ys => if x ≤ y then x :: y :: ys else y :: insertAsc x ys

/-- Ascending insertion sort. -/
def sortAsc (xs : List ℚ) : List ℚ :=
  xs.foldl (fun acc x => insertAsc x acc) []

/-- Linear-interpolation quantile of a sorted nonempty list (pandas
default interpolation). -/
def quantileQ (xs : List ℚ) (p : ℚ) : ℚ :=
  let n := xs.length
  let h := p * ((n : ℚ) - 1)
  let lo := h.floor.toNat
  let frac := h - (h.floor : ℚ)
  let a := xs.getD lo 0
  let b := xs.getD (lo + 1) a
  a + frac * (b - a)

/-- One transposed row of `df.describe(include="number")` for numeric
column `c`: `[column, count, mean, std, min, 25%, 50%, 75%, max]` over
the non-null values.  `std` is the sample standard deviation, the
square root (via the abstract float `sqrtQ`) of the ddof=1 variance. -/
def describeRow (env : Env) (df : DataFrame) (c : String) : List Value :=
  let xs := sortAsc ((df.col c).filterMap numOf)
  let n := xs.length
  let mean := xs.sum / (n : ℚ)
  [Value.str c,
   Value.float (n : ℚ),
   if n = 0 then Value.null else .float mean,
   if n ≤ 1 then Value.null
   else .float (env.sqrtQ ((xs.map (fun x => (x - mean) ^ 2)).sum / ((n : ℚ) - 1))),
   if n = 0 then Value.null else .float (xs.getD 0 0),
   if n = 0 then Value.null else .float (quantileQ xs (1/4)),
   if n = 0 then Value.null else .float (quantileQ xs (1/2)),
   if n = 0 then Value.null else .float (quantileQ xs (3/4)),
   if n = 0 then Value.null else .float (xs.getD (n - 1) 0)]

/-- Success payload of `describe_numeric`. -/
structure SummaryOk where
  summary : List (List Value)
  deriving DecidableEq, Repr

/-- `describe_numeric()` (main.py:189-198).  `df.describe(include=
"number")` raises `ValueError` on a frame with no columns at all
("Cannot describe a DataFrame without columns") and, with an explicit
`include`, also when no column is numeric (the internal concat of
per-column summaries gets an empty list: "No objects to concatenate");
otherwise the transposed summary becomes `last_result`. -/
def describe_numeric (env : Env) (st : State) : Except Err SummaryOk × State :=
  match st.df with
  | none => (.error .notLoaded, st)
  | some df =>
    if df.headers = [] then (.error .describeNoColumns, st)
    else
      let numCols := (df.headers.zip df.dtypes).filter (fun p => p.2 = .numeric)
      if numCols = [] then (.error .noNumericColumns, st)
      else
        let out : DataFrame :=
          { headers := ["column", "count", "mean", "std", "min", "25%", "50%", "75%", "max"]
            dtypes := Dtype.object :: List.replicate 8 Dtype.numeric
            rows := numCols.map (fun p => describeRow env df p.1) }
        (.ok { summary := out.rows }, { st with last_result := some out })

/-- First-seen deduplication: keep elements not already seen. -/
def uniqAux {α : Type} [DecidableEq α] : List α → List α → List α
  | _, [] => []
  | seen, a :: as =>
    if a ∈ seen then uniqAux seen as else a :: uniqAux (a :: seen) as

/-- First-seen deduplication. -/
def uniqList {α : Type} [DecidableEq α] (l : List α) : List α :=
  uniqAux [] l

/-- Insert into a count-descending list, after entries of equal count
(the stable tie-break of `value_counts`). -/
def insertByCount (x : Value × Nat) : List (Value × Nat) → List (Value × Nat)
  | [] => [x]
  | y :: ys => if x.2 ≤ y.2 then y :: insertByCount x ys else x :: y :: ys

/-- Stable sort by count, descending. -/
def sortDescByCount (xs : List (Value × Nat)) : List (Value × Nat) :=
  xs.foldl (fun acc x => insertByCount x acc) []

/-- Success payload of `value_counts`: `{value, metric}` records. -/
structure CountsOk where
  column : String
  results : List (Value × Value)
  deriving DecidableEq, Repr

/-- `value_counts(column, limit, normalize, dropna)` (main.py:201-224):
count distinct values (nulls kept as a key unless `dropna`), sort by
count descending, truncate with `head(limit)`; `metric` is a count, or
a proportion of the counted total under `normalize`. -/
def value_counts (st : State) (column : String) (limit : Int)
    (normalize : Bool) (dropna : Bool) : Except Err CountsOk × State :=
  match st.df with
  | none => (.error .notLoaded, st)
  | some df =>
    if column ∉ df.headers then (.error (.unknownColumn column), st)
    else
      let vals := df.col column
      let vals := if dropna then vals.filter (fun v => v ≠ .null) else vals
      let pairs := sortDescByCount ((uniqList vals).map (fun v => (v, vals.count v)))
      let top := pdHead limit pairs
      let results := top.map (fun p =>
        (p.1, if normalize then Value.float ((p.2 : ℚ) / (vals.length : ℚ))
              else Value.int p.2))
      let lr : DataFrame :=
        if results = [] then { headers := [], dtypes := [], rows := [] }
        else
          { headers := ["value", "metric"], dtypes := [.object, .numeric]
            rows := results.map (fun p => [p.1, p.2]) }
      (.ok { column := column, results := results }, { st with last_result := some lr })

/-! ### `groupby_aggregate` (main.py:317-358) -/

/-- An aggregation descriptor (`a.get("column")`, `a.get("agg")`). -/
structure Agg where
  column : Option String
  agg : Option String
  deriving DecidableEq, Repr

/-- The six supported aggregation functions. -/
def aggFns : List String := ["sum", "mean", "min", "max", "count", "nunique"]

/-- `agg_map.setdefault(col, []).append(fn)`: dict insertion order with
per-column function lists. -/
def addAgg (m : List (String × List String)) (c : String) (fn : String) :
    List (String × List String) :=
  if m.any (fun p => p.1 = c) then
    m.map (fun p => if p.1 = c then (p.1, p.2 ++ [fn]) else p)
  else m ++ [(c, [fn])]

/-- The validation loop over `aggregations` (main.py:344-351):
missing/unknown column, then unsupported function, short-circuiting. -/
def buildAggMap (df : DataFrame) :
    List Agg → List (String × List String) → Except Err (List (String × List String))
  | [], m => .ok m
  | a :: as, m =>
    match a.column with
    | none => .error (.unknownAggColumn none)
    | some c =>
      if c = "" ∨ c ∉ df.headers then .error (.unknownAggColumn (some c))
      else
        match a.agg with
        | some fn =>
          if fn ∈ aggFns then buildAggMap df as (addAgg m c fn)
          else .error (.unsupportedAgg (some fn))
        | none => .error (.unsupportedAgg none)

/-- The flattened `(column, function)` pairs of an aggregation map, in
the MultiIndex order `grouped.columns` exposes. -/
def aggPairs (m : List (String × List String)) : List (String × String) :=
  (m.map (fun p => p.2.map (fun f => (p.1, f)))).flatten

/-- The grouping key of a row: its values at the group-column indices
(nulls included — `dropna=False`). -/
def keyOf (idxs : List Nat) (r : List Value) : List Value :=
  idxs.map (fun i => r.getD i .null)

/-- Best-effort `≤` on scalars for `min`/`max` aggregation. -/
def vle (a b : Value) : Bool :=
  match numOf a, numOf b with
  | some x, some y => x ≤ y
  | _, _ =>
    match a, b with
    | .str s, .str t => s ≤ t
    | _, _ => true

/-- One aggregation function over a group's column values, with pandas
null conventions: `count`/`nunique` count non-nulls, `sum` is 0 on an
all-null group (and concatenates on a string column), `mean` of an
empty group is NaN (null), `min`/`max` of an all-null group is null. -/
def applyAgg (fn : String) (vals : List Value) : Value :=
  let nn := vals.filter (fun v => v ≠ .null)
  if fn = "count" then .int nn.length
  else if fn = "nunique" then .int (uniqList nn).length
  else if fn = "sum" then
    if nn ≠ [] ∧ nn.all (fun v => match v with | .str _ => true | _ => false) then
      .str (String.join (nn.map (fun v => (toStringCell v).getD "")))
    else .float (nn.filterMap numOf).sum
  else if fn = "mean" then
    let xs := nn.filterMap numOf
    if xs.length = 0 then .null else .float (xs.sum / (xs.length : ℚ))
  else if fn = "min" then
    match nn with
    | [] => .null
    | x :: xs => xs.foldl (fun m v => if vle v m then v else m) x
  else
    match nn with
    | [] => .null
    | x :: xs => xs.foldl (fun m v => if vle m v then v else m) x

/-- `df.groupby(group_columns, dropna=False).agg(agg_map)` followed by
the column rename and `reset_index()`: one output row per distinct key
(null keys kept as their own group), group columns first, then one
`<column>_<function>` column per aggregation.  pandas sorts the groups
by key; we keep first-seen order, a permutation (the spec leaves row
order implementation-defined and no claim depends on it). -/
def doGroup (df : DataFrame) (gcols : List String)
    (m : List (String × List String)) : DataFrame :=
  let idxs := gcols.map df.colIdx
  let keys := uniqList (df.rows.map (keyOf idxs))
  let pairs := aggPairs m
  { headers := gcols ++ pairs.map (fun p => p.1 ++ "_" ++ p.2)
    dtypes := gcols.map df.dtypeOf ++ pairs.map (fun _ => Dtype.numeric)
    rows := keys.map (fun k =>
      let grp := df.rows.filter (fun r => keyOf idxs r == k)
      k ++ pairs.map (fun p =>
        applyAgg p.2 (grp.map (fun r => r.getD (df.colIdx p.1) .null)))) }

/-- Success payload of `groupby_aggregate`. -/
structure GroupOk where
  row_count : Nat
  rows : List (List Value)
  deriving DecidableEq, Repr

/-- `groupby_aggregate(group_columns, aggregations, limit)`
(main.py:317-358).  `df.groupby([], dropna=False)` raises
`ValueError("No group keys passed!")`, after the argument
validation. -/
def groupby_aggregate (st : State) (group_columns : List String)
    (aggregations : List Agg) (limit : Int) : Except Err GroupOk × State :=
  match st.df with
  | none => (.error .notLoaded, st)
  | some df =>
    let missing := group_columns.filter (fun c => c ∉ df.headers)
    if missing ≠ [] then (.error (.unknownGroupColumns missing), st)
    else
      match buildAggMap df aggregations [] with
      | .error e => (.error e, st)
      | .ok m =>
        if group_columns = [] then (.error .noGroupKeys, st)
        else
          let grouped := doGroup df group_columns m
          (.ok { row_count := grouped.rows.length, rows := _df_to_rows grouped limit },
            { st with last_result := some grouped })

/-- Success payload of `export_last_result`. -/
structure ExportOk where
  output_path : List String
  rows_written : Nat
  deriving DecidableEq, Repr

/-- `export_last_result(output_path)` (main.py:361-387): require a last
result, resolve the destination (relative paths against the base
directory), check containment — and nothing else, in particular no
extension check — then create parents and write. -/
def export_last_result (env : Env) (st : State) (output_path : UserPath) :
    Except Err ExportOk × State :=
  match st.last_result with
  | none => (.error .noResult, st)
  | some lr =>
    let out := resolveUnder st.base_dir output_path
    if st.base_dir.isPrefixOf out then
      if env.writeOk out then
        (.ok { output_path := out, rows_written := lr.rows.length }, st)
      else (.error .writeFailed, st)
    else (.error .accessDenied, st)

/-! ## The operation interface -/

/-- The named operations of §6, with their argument records. -/
inductive Op where
  | set_base_directory (path : UserPath)
  | get_base_directory
  | load_csv (path : UserPath) (delimiter : String) (encoding : Option String)
      (sample_rows : Int)
  | get_schema
  | preview (rows : Int) (columns : Option (List String))
  | describe_numeric
  | value_counts (column : String) (limit : Int) (normalize : Bool) (dropna : Bool)
  | filter_rows (filters : List Filter) (logic : String) (limit : Int)
  | groupby_aggregate (group_columns : List String) (aggregations : List Agg)
      (limit : Int)
  | export_last_result (output_path : UserPath)

/-- A success payload, tagged by operation. -/
inductive OpResult where
  | baseR (r : BaseOk)
  | loadR (r : LoadOk)
  | schemaR (r : SchemaOk)
  | previewR (r : PreviewOk)
  | summaryR (r : SummaryOk)
  | countsR (r : CountsOk)
  | filterR (r : FilterOk)
  | groupR (r : GroupOk)
  | exportR (r : ExportOk)
  deriving DecidableEq, Repr

/-- Dispatch one operation against the process state (the body of each
`@mcp.tool()`, run under the process lock). -/
def runOp (env : Env) (st : State) : Op → Except Err OpResult × State
  | .set_base_directory p =>
    match set_base_directory env st p with
    | (.ok r, st2) => (.ok (.baseR r), st2)
    | (.error e, st2) => (.error e, st2)
  | .get_base_directory =>
    match get_base_directory st with
    | (.ok r, st2) => (.ok (.baseR r), st2)
    | (.error e, st2) => (.error e, st2)
  | .load_csv p d e s =>
    match load_csv env st p d e s with
    | (.ok r, st2) => (.ok (.loadR r), st2)
    | (.error e, st2) => (.error e, st2)
  | .get_schema =>
    match get_schema st with
    | (.ok r, st2) => (.ok (.schemaR r), st2)
    | (.error e, st2) => (.error e, st2)
  | .preview rows cols =>
    match preview st rows cols with
    | (.ok r, st2) => (.ok (.previewR r), st2)
    | (.error e, st2) => (.error e, st2)
  | .describe_numeric =>
    match describe_numeric env st with
    | (.ok r, st2) => (.ok (.summaryR r), st2)
    | (.error e, st2) => (.error e, st2)
  | .value_counts c l n d =>
    match value_counts st c l n d with
    | (.ok r, st2) => (.ok (.countsR r), st2)
    | (.error e, st2) => (.error e, st2)
  | .filter_rows fs logic limit =>
    match filter_rows env st fs logic limit with
    | (.ok r, st2) => (.ok (.filterR r), st2)
    | (.error e, st2) => (.error e, st2)
  | .groupby_aggregate g a l =>
    match groupby_aggregate st g a l with
    | (.ok r, st2) => (.ok (.groupR r), st2)
    | (.error e, st2) => (.error e, st2)
  | .export_last_result p =>
    match export_last_result env st p with
    | (.ok r, st2) => (.ok (.exportR r), st2)
    | (.error e, st2) => (.error e, st2)

/-! ## Concrete fixtures (used by the closed witness theorems) -/

/-- A permissive concrete environment: every path is an existing file
and directory, parsing fails (never needed), every write succeeds,
every pattern is a valid regex that matches nothing. -/
def env0 : Env :=
  { isFile := fun _ => true
    isDir := fun _ => true
    readCsv := fun _ _ _ => .error ()
    writeOk := fun _ => true
    reValid := fun _ => true
    reSearch := fun _ _ => false
    sqrtQ := fun q => q
    cwd := [] }

/-- The three-row scenario table of spec §8. -/
def df0 : DataFrame :=
  { headers := ["Status", "Amount"]
    dtypes := [.object, .numeric]
    rows := [[.str "Open", .int 3], [.str "Closed", .int 5], [.str "Open", .null]] }

/-- A state with `df0` loaded, sandbox root `/home/user`. -/
def st0 : State :=
  { csv_path := none, df := some df0, last_result := none, base_dir := ["home", "user"] }

/-- A table with no numeric column. -/
def df1 : DataFrame :=
  { headers := ["Status"], dtypes := [.object], rows := [[.str "a"]] }

/-- A state with `df1` loaded. -/
def stDf1 : State :=
  { csv_path := none, df := some df1, last_result := none, base_dir := [] }

/-- A table with a null in the group column. -/
def df2 : DataFrame :=
  { headers := ["Status", "Amount"]
    dtypes := [.object, .numeric]
    rows := [[.str "Open", .int 3], [.null, .int 5]] }

/-- A state with `df2` loaded. -/
def stG : State :=
  { csv_path := none, df := some df2, last_result := none, base_dir := [] }

/-- An empty state (nothing loaded). -/
def stEmpty : State :=
  { csv_path := none, df := none, last_result := none, base_dir := [] }

/-- A state holding a last result (for export). -/
def stE : State :=
  { csv_path := none, df := some df0, last_result := some df0
    base_dir := ["home", "user"] }

/-! ## Claim C1: sandbox escape and the order of checks -/

/-- C1, counterexample.  The claim says `resolve("../../etc/passwd")`
relative to any sandbox root fails with `AccessDenied` and that every
path resolving outside the root does.  In the code the `.csv` extension
check runs first (main.py:49-50), so this traversal input fails with
`InvalidPath` instead — even in an environment where every path is an
existing file. -/
theorem c1_counterexample :
    _resolve_csv_path env0 ["home", "user"] ⟨false, ["..", "..", "etc", "passwd"]⟩
        = .error .invalidPath ∧
      _resolve_csv_path env0 ["home", "user"] ⟨false, ["..", "..", "etc", "passwd"]⟩
        ≠ .error .accessDenied :=
  ⟨by decide, by decide⟩

/-- C1, amended: for every input path that survives the earlier checks
— its resolved form ends in `.csv` (case-insensitively) and names an
existing regular file — resolution outside the sandbox root fails with
`AccessDenied` (and no other error kind); `../../etc/passwd` itself
fails earlier, with `InvalidPath`, because the extension check runs
first. -/
theorem c1_outside_root_accessDenied (env : Env) (base : List String) (p : UserPath)
    (hcsv : endsCsvLower (resolveUnder base p) = true)
    (hfile : env.isFile (resolveUnder base p) = true)
    (hesc : base.isPrefixOf (resolveUnder base p) = false) :
    _resolve_csv_path env base p = .error .accessDenied := by
  simp [_resolve_csv_path, hcsv, hfile, hesc]

/-- C1, witness: `/etc/pw.csv` (existing, right extension) against root
`/home/user`. -/
theorem c1_outside_root_accessDenied_witness :
    endsCsvLower (resolveUnder ["home", "user"] ⟨true, ["etc", "pw.csv"]⟩) = true ∧
      env0.isFile (resolveUnder ["home", "user"] ⟨true, ["etc", "pw.csv"]⟩) = true ∧
      List.isPrefixOf ["home", "user"]
          (resolveUnder ["home", "user"] ⟨true, ["etc", "pw.csv"]⟩) = false ∧
      _resolve_csv_path env0 ["home", "user"] ⟨true, ["etc", "pw.csv"]⟩
        = .error .accessDenied :=
  ⟨by decide, by decide, by decide,
    c1_outside_root_accessDenied env0 ["home", "user"] ⟨true, ["etc", "pw.csv"]⟩
      (by decide) (by decide) (by decide)⟩

/-! ## Claim C4: zero filters select everything -/

/-- C4: on a loaded table, `filter_rows` with an empty filter list
succeeds, reports `row_count` equal to the unfiltered table's row count
and returns the table's own rows up to the limit. -/
theorem c4_empty_filters_select_all (env : Env) (st : State) (df : DataFrame)
    (limit : Int) (hdf : st.df = some df) :
    (filter_rows env st [] "and" limit).1
      = .ok { row_count := df.rows.length, rows := _df_to_rows df limit } := by
  simp [filter_rows, hdf, buildMask]

/-- C4, witness: the scenario table, limit 200. -/
theorem c4_empty_filters_select_all_witness :
    st0.df = some df0 ∧
      (filter_rows env0 st0 [] "and" 200).1
        = .ok { row_count := df0.rows.length, rows := _df_to_rows df0 200 } :=
  ⟨rfl, c4_empty_filters_select_all env0 st0 df0 200 rfl⟩

/-! ## Claim C9: non-positive limit -/

/-- C9: on a loaded table, a successful `filter_rows` call with
`limit ≤ 0` returns an empty `rows` list while `row_count` still counts
every row matching the filters (the full filtered table recorded in
`last_result`). -/
theorem c9_nonpositive_limit_empty_rows_full_count (env : Env) (st : State)
    (df : DataFrame) (fs : List Filter) (logic : String) (limit : Int) (r : FilterOk)
    (hdf : st.df = some df) (hlim : limit ≤ 0)
    (hok : (filter_rows env st fs logic limit).1 = .ok r) :
    r.rows = [] ∧
      ∃ out, (filter_rows env st fs logic limit).2.last_result = some out ∧
        r.row_count = out.rows.length := by
  unfold filter_rows at hok ⊢
  simp only [hdf] at hok ⊢
  by_cases hl : logic ≠ "and" ∧ logic ≠ "or"
  · rw [if_pos hl] at hok; exact absurd hok (by simp)
  · rw [if_neg hl] at hok ⊢
    rcases hbm : buildMask env df logic fs none with e | mask
    · rw [hbm] at hok; exact absurd hok (by simp)
    · rw [hbm] at hok
      rcases mask with _ | m
      · have hr : ({ row_count := df.rows.length, rows := _df_to_rows df limit } : FilterOk) = r := Except.ok.inj hok
        rw [← hr]
        exact ⟨by simp [_df_to_rows, hlim], ⟨df, by simp [hbm], rfl⟩⟩
      · have hr : ({ row_count := (applyMaskDf df m).rows.length, rows := _df_to_rows (applyMaskDf df m) limit } : FilterOk) = r := Except.ok.inj hok
        rw [← hr]
        exact ⟨by simp [_df_to_rows, hlim], ⟨applyMaskDf df m, by simp [hbm], rfl⟩⟩

/-- C9, witness: empty filters over the scenario table at limit 0. -/
theorem c9_nonpositive_limit_witness :
    (filter_rows env0 st0 [] "and" 0).1
        = .ok { row_count := 3, rows := [] } ∧
      ({ row_count := 3, rows := [] } : FilterOk).rows = ([] : List (List Value)) ∧
      ∃ out, (filter_rows env0 st0 [] "and" 0).2.last_result = some out ∧
        ({ row_count := 3, rows := [] } : FilterOk).row_count = out.rows.length :=
  ⟨by decide,
    (c9_nonpositive_limit_empty_rows_full_count env0 st0 df0 [] "and" 0
        { row_count := 3, rows := [] } rfl (by decide) (by decide)).1,
    (c9_nonpositive_limit_empty_rows_full_count env0 st0 df0 [] "and" 0
        { row_count := 3, rows := [] } rfl (by decide) (by decide)).2⟩

/-! ## Claim C10: export checks containment only; load requires `.csv` -/

/-- C10: `export_last_result` applies only the base-directory
containment check — no extension check — so any destination resolving
under the base directory is written whatever its suffix, while
`load_csv` rejects every path whose resolved form does not end in
`.csv` (case-insensitively) with `InvalidPath`. -/
theorem c10_export_any_suffix_load_requires_csv (env : Env) (st : State)
    (lr : DataFrame) (outp loadp : UserPath) (d : String) (enc : Option String)
    (n : Int)
    (hlr : st.last_result = some lr)
    (hin : st.base_dir.isPrefixOf (resolveUnder st.base_dir outp) = true)
    (hw : env.writeOk (resolveUnder st.base_dir outp) = true)
    (hnotcsv : endsCsvLower (resolveUnder st.base_dir loadp) = false) :
    export_last_result env st outp
        = (.ok { output_path := resolveUnder st.base_dir outp,
                 rows_written := lr.rows.length }, st) ∧
      load_csv env st loadp d enc n = (.error .invalidPath, st) := by
  constructor
  · simp [export_last_result, hlr, hin, hw]
  · simp [load_csv, _resolve_csv_path, hnotcsv]

/-- C10, witness: exporting to `out.txt` under the root succeeds while
loading `out.txt` fails with `InvalidPath`. -/
theorem c10_export_any_suffix_load_requires_csv_witness :
    stE.last_result = some df0 ∧
      List.isPrefixOf stE.base_dir (resolveUnder stE.base_dir ⟨false, ["out.txt"]⟩)
        = true ∧
      endsCsvLower (resolveUnder stE.base_dir ⟨false, ["out.txt"]⟩) = false ∧
      export_last_result env0 stE ⟨false, ["out.txt"]⟩
        = (.ok { output_path := resolveUnder stE.base_dir ⟨false, ["out.txt"]⟩,
                 rows_written := df0.rows.length }, stE) ∧
      load_csv env0 stE ⟨false, ["out.txt"]⟩ "," none 10
        = (.error .invalidPath, stE) :=
  ⟨rfl, by decide, by decide,
    (c10_export_any_suffix_load_requires_csv env0 stE df0 ⟨false, ["out.txt"]⟩
        ⟨false, ["out.txt"]⟩ "," none 10 rfl (by decide) rfl (by decide)).1,
    (c10_export_any_suffix_load_requires_csv env0 stE df0 ⟨false, ["out.txt"]⟩
        ⟨false, ["out.txt"]⟩ "," none 10 rfl (by decide) rfl (by decide)).2⟩

/-! ## Claim C6: incomparable comparison values -/

/-- C6, counterexample.  The claim includes `==`/`!=` among the
comparison operators that must fail with `ComparisonFailed` on a value
not comparable to the column's type (its own example: a string against
a numeric column).  pandas equality comparisons never raise on a type
mismatch — they return an all-unequal mask — so `==` with a string
value against the numeric `Amount` column succeeds with zero matching
rows instead of failing. -/
theorem c6_counterexample :
    df0.dtypeOf "Amount" = .numeric ∧
      numOf (.str "x") = none ∧
      (filter_rows env0 st0
          [⟨some "Amount", some "==", .scalar (.str "x"), false⟩] "and" 200).1
        = .ok { row_count := 0, rows := [] } :=
  ⟨by decide, by decide, by decide⟩

/-- C6, amended: for the ordering comparison operators
(`>`, `>=`, `<`, `<=`), a scalar value that is not comparable to a
numeric or boolean column (no numeric reading, e.g. a string) makes
`filter_rows` fail with `ComparisonFailed` and leave the state
unchanged; the equality operators `==`/`!=` instead succeed with an
all-false (resp. all-true) mask on such a mismatch. -/
theorem c6_ordering_incomparable_comparisonFailed (env : Env) (st : State)
    (df : DataFrame) (c op : String) (v : Value) (cs : Bool) (limit : Int)
    (hdf : st.df = some df)
    (hop : op = ">" ∨ op = ">=" ∨ op = "<" ∨ op = "<=")
    (hc : c ∈ df.headers) (hc0 : ¬ c = "")
    (hdt : df.dtypeOf c = .numeric ∨ df.dtypeOf c = .boolean)
    (hv : numOf v = none) :
    filter_rows env st [⟨some c, some op, .scalar v, cs⟩] "and" limit
      = (.error .comparisonFailed, st) := by
  have hs : ∀ o cells, seriesOrd (df.dtypeOf c) o cells (.scalar v) = .error () := by
    intro o cells
    rcases hdt with h | h <;> rw [h] <;> simp [seriesOrd, hv]
  have hereval : evalFilter env df ⟨some c, some op, .scalar v, cs⟩
      = .error .comparisonFailed := by
    rcases hop with h | h | h | h <;> subst h <;>
      simp [evalFilter, hc, hc0, hs, Except.mapError]
  simp [filter_rows, hdf, buildMask, hereval, Except.instMonad, Bind.bind,
    Except.bind]

/-- C6, witness: `Amount > "x"` on the scenario table. -/
theorem c6_ordering_incomparable_comparisonFailed_witness :
    st0.df = some df0 ∧
      df0.dtypeOf "Amount" = .numeric ∧
      numOf (.str "x") = none ∧
      filter_rows env0 st0
          [⟨some "Amount", some ">", .scalar (.str "x"), false⟩] "and" 200
        = (.error .comparisonFailed, st0) :=
  ⟨rfl, by decide, rfl,
    c6_ordering_incomparable_comparisonFailed env0 st0 df0 "Amount" ">"
      (.str "x") false 200 rfl (Or.inl rfl) (by decide) (by decide)
      (Or.inl (by decide)) rfl⟩

/-! ## Claim C3: describe with no numeric columns -/

/-- C3, counterexample.  The claim says a loaded table with zero
numeric columns makes `describe_numeric` return an empty result table
successfully.  `df.describe(include="number")` instead raises
(`ValueError: No objects to concatenate`): on the all-object table
`df1` the call returns an error. -/
theorem c3_counterexample :
    (df1.dtypes.all (fun d => d ≠ Dtype.numeric)) = true ∧
      (describe_numeric env0 stDf1).1 = .error .noNumericColumns :=
  ⟨by decide, by decide⟩

/-- C3, amended: on every loaded table with zero numeric-typed columns,
`describe_numeric` returns an error (pandas `describe` raises both on a
table without columns and on one whose columns are all non-numeric),
leaving the state unchanged — not an empty result table. -/
theorem c3_no_numeric_columns_errors (env : Env) (st : State) (df : DataFrame)
    (hdf : st.df = some df)
    (hnum : ∀ d ∈ df.dtypes, d ≠ Dtype.numeric) :
    ∃ e, describe_numeric env st = (.error e, st) := by
  have hfilter : (df.headers.zip df.dtypes).filter (fun p => p.2 = Dtype.numeric)
      = [] := by
    rw [List.filter_eq_nil_iff]
    rintro ⟨p1, p2⟩ hp
    have h2 := (List.of_mem_zip hp).2
    simp [hnum _ h2]
  by_cases hh : df.headers = []
  · exact ⟨.describeNoColumns, by simp [describe_numeric, hdf, hh]⟩
  · exact ⟨.noNumericColumns, by simp [describe_numeric, hdf, hh, hfilter]⟩

/-- C3, witness: the all-object table `df1`. -/
theorem c3_no_numeric_columns_errors_witness :
    stDf1.df = some df1 ∧
      ∃ e, describe_numeric env0 stDf1 = (.error e, stDf1) :=
  ⟨rfl, c3_no_numeric_columns_errors env0 stDf1 df1 rfl (by decide)⟩

/-! ## Claim C2: no state mutation on any error

One lemma per operation: an error result is always paired with the
entry state (every mutation in the code happens after the last
possible failure point of its tool body). -/

theorem set_base_directory_error {env : Env} {st : State} {p : UserPath} {e : Err}
    {st2 : State} (h : set_base_directory env st p = (.error e, st2)) : st2 = st := by
  simp only [set_base_directory] at h
  iterate 6 (all_goals (try (split at h)))
  all_goals first
    | exact (congrArg Prod.snd h).symm
    | exact absurd (congrArg Prod.fst h) (by simp)

theorem get_base_directory_error {st : State} {e : Err} {st2 : State}
    (h : get_base_directory st = (.error e, st2)) : st2 = st := by
  simp only [get_base_directory] at h
  exact absurd (congrArg Prod.fst h) (by simp)

theorem load_csv_error {env : Env} {st : State} {p : UserPath} {d : String}
    {enc : Option String} {n : Int} {e : Err} {st2 : State}
    (h : load_csv env st p d enc n = (.error e, st2)) : st2 = st := by
  simp only [load_csv] at h
  iterate 6 (all_goals (try (split at h)))
  all_goals first
    | exact (congrArg Prod.snd h).symm
    | exact absurd (congrArg Prod.fst h) (by simp)

theorem get_schema_error {st : State} {e : Err} {st2 : State}
    (h : get_schema st = (.error e, st2)) : st2 = st := by
  simp only [get_schema] at h
  iterate 6 (all_goals (try (split at h)))
  all_goals first
    | exact (congrArg Prod.snd h).symm
    | exact absurd (congrArg Prod.fst h) (by simp)

theorem preview_error {st : State} {rows : Int} {cols : Option (List String)}
    {e : Err} {st2 : State} (h : preview st rows cols = (.error e, st2)) : st2 = st := by
  simp only [preview] at h
  iterate 6 (all_goals (try (split at h)))
  all_goals first
    | exact (congrArg Prod.snd h).symm
    | exact absurd (congrArg Prod.fst h) (by simp)

theorem describe_numeric_error {env : Env} {st : State} {e : Err} {st2 : State}
    (h : describe_numeric env st = (.error e, st2)) : st2 = st := by
  simp only [describe_numeric] at h
  iterate 6 (all_goals (try (split at h)))
  all_goals first
    | exact (congrArg Prod.snd h).symm
    | exact absurd (congrArg Prod.fst h) (by simp)

theorem value_counts_error {st : State} {c : String} {l : Int} {nz dn : Bool}
    {e : Err} {st2 : State} (h : value_counts st c l nz dn = (.error e, st2)) :
    st2 = st := by
  simp only [value_counts] at h
  iterate 6 (all_goals (try (split at h)))
  all_goals first
    | exact (congrArg Prod.snd h).symm
    | exact absurd (congrArg Prod.fst h) (by simp)

theorem filter_rows_error {env : Env} {st : State} {fs : List Filter}
    {logic : String} {limit : Int} {e : Err} {st2 : State}
    (h : filter_rows env st fs logic limit = (.error e, st2)) : st2 = st := by
  simp only [filter_rows] at h
  iterate 6 (all_goals (try (split at h)))
  all_goals first
    | exact (congrArg Prod.snd h).symm
    | exact absurd (congrArg Prod.fst h) (by simp)

theorem groupby_aggregate_error {st : State} {g : List String} {a : List Agg}
    {l : Int} {e : Err} {st2 : State}
    (h : groupby_aggregate st g a l = (.error e, st2)) : st2 = st := by
  simp only [groupby_aggregate] at h
  iterate 6 (all_goals (try (split at h)))
  all_goals first
    | exact (congrArg Prod.snd h).symm
    | exact absurd (congrArg Prod.fst h) (by simp)

theorem export_last_result_error {env : Env} {st : State} {p : UserPath}
    {e : Err} {st2 : State} (h : export_last_result env st p = (.error e, st2)) :
    st2 = st := by
  simp only [export_last_result] at h
  iterate 6 (all_goals (try (split at h)))
  all_goals first
    | exact (congrArg Prod.snd h).symm
    | exact absurd (congrArg Prod.fst h) (by simp)

/-- C2: for every operation and every input on which it returns an
error, the process state (`csv_path`, `df`, `last_result`, `base_dir`)
after the call is exactly the state before it: no error path performs a
partial mutation. -/
theorem c2_errors_leave_state_unchanged (env : Env) (st : State) (op : Op)
    (e : Err) (st2 : State) (h : runOp env st op = (.error e, st2)) : st2 = st := by
  cases op <;> simp only [runOp] at h <;> split at h <;>
    first
    | (simp at h; done)
    | (rename_i heq
       have h2 := (congrArg Prod.snd h).symm
       first
       | exact h2.trans (set_base_directory_error heq)
       | exact h2.trans (get_base_directory_error heq)
       | exact h2.trans (load_csv_error heq)
       | exact h2.trans (get_schema_error heq)
       | exact h2.trans (preview_error heq)
       | exact h2.trans (describe_numeric_error heq)
       | exact h2.trans (value_counts_error heq)
       | exact h2.trans (filter_rows_error heq)
       | exact h2.trans (groupby_aggregate_error heq)
       | exact h2.trans (export_last_result_error heq))

/-- C2, witness: `get_schema` on the empty state fails with `NotLoaded`
and returns the state unchanged. -/
theorem c2_errors_leave_state_unchanged_witness :
    runOp env0 stEmpty .get_schema = (.error .notLoaded, stEmpty) ∧
      stEmpty = stEmpty :=
  ⟨by decide,
    c2_errors_leave_state_unchanged env0 stEmpty .get_schema .notLoaded stEmpty
      (by decide)⟩

/-! ## Claim C5: AND-selection is a subset of OR-selection -/

/-- Pointwise implication between two masks of equal length. -/
def maskImp : List Bool → List Bool → Prop
  | [], [] => True
  | a :: as, b :: bs => (a = true → b = true) ∧ maskImp as bs
  | _, _ => False

theorem maskImp_refl : ∀ m : List Bool, maskImp m m
  | [] => trivial
  | _ :: as => ⟨id, maskImp_refl as⟩

theorem maskImp_zipWith : ∀ (a b m : List Bool), maskImp a b →
    maskImp (List.zipWith and a m) (List.zipWith or b m) := by
  intro a
  induction a with
  | nil =>
    intro b m h
    cases b with
    | nil => cases m <;> trivial
    | cons _ _ => exact h.elim
  | cons a0 as ih =>
    intro b m h
    cases b with
    | nil => exact h.elim
    | cons b0 bs =>
      obtain ⟨h1, h2⟩ := h
      cases m with
      | nil => trivial
      | cons m0 ms =>
        refine ⟨?_, ih bs ms h2⟩
        cases a0 <;> cases b0 <;> cases m0 <;> simp_all

theorem maskFilter_sublist {α : Type} : ∀ (m1 m2 : List Bool) (rows : List α),
    maskImp m1 m2 → (maskFilter rows m1).Sublist (maskFilter rows m2) := by
  intro m1
  induction m1 with
  | nil =>
    intro m2 rows h
    cases m2 with
    | nil => cases rows <;> exact List.Sublist.refl _
    | cons _ _ => exact h.elim
  | cons x xs ih =>
    intro m2 rows h
    cases m2 with
    | nil => exact h.elim
    | cons y ys =>
      obtain ⟨h1, h2⟩ := h
      cases rows with
      | nil => exact List.Sublist.refl _
      | cons r rs =>
        simp only [maskFilter]
        cases x with
        | true =>
          rw [h1 rfl]
          simp only [if_true]
          exact (ih ys rs h2).cons₂ r
        | false =>
          simp only [Bool.false_eq_true, if_false]
          cases y with
          | true => simp only [if_true]; exact (ih ys rs h2).cons r
          | false => simp only [Bool.false_eq_true, if_false]; exact ih ys rs h2

/-- Implication lifted to the optional accumulator of the filter loop. -/
def optMaskImp : Option (List Bool) → Option (List Bool) → Prop
  | none, none => True
  | some a, some b => maskImp a b
  | _, _ => False

theorem combineMask_imp (a b : Option (List Bool)) (m : List Bool)
    (h : optMaskImp a b) :
    maskImp (combineMask "and" a m) (combineMask "or" b m) := by
  cases a with
  | none =>
    cases b with
    | none => simpa [combineMask] using maskImp_refl m
    | some _ => exact h.elim
  | some a' =>
    cases b with
    | none => exact h.elim
    | some b' => simpa [combineMask] using maskImp_zipWith a' b' m h

/-- Per filter list, the two logics either fail identically or produce
pointwise-implying masks (each descriptor's mask does not depend on the
logic; only the fold does). -/
theorem buildMask_and_or (env : Env) (df : DataFrame) :
    ∀ (fs : List Filter) (a b : Option (List Bool)), optMaskImp a b →
      (∃ e, buildMask env df "and" fs a = .error e ∧
        buildMask env df "or" fs b = .error e) ∨
      (∃ ma mb, buildMask env df "and" fs a = .ok ma ∧
        buildMask env df "or" fs b = .ok mb ∧ optMaskImp ma mb) := by
  intro fs
  induction fs with
  | nil => intro a b h; exact .inr ⟨a, b, rfl, rfl, h⟩
  | cons f fs ih =>
    intro a b h
    cases hef : evalFilter env df f with
    | error e =>
      refine .inl ⟨e, ?_, ?_⟩ <;>
        simp [buildMask, hef, Except.instMonad, Bind.bind, Except.bind]
    | ok m =>
      have h2 := ih (some (combineMask "and" a m)) (some (combineMask "or" b m))
        (combineMask_imp a b m h)
      rcases h2 with ⟨e, h3, h4⟩ | ⟨ma, mb, h3, h4, h5⟩
      · refine .inl ⟨e, ?_, ?_⟩ <;>
          simp [buildMask, hef, Except.instMonad, Bind.bind, Except.bind, h3, h4]
      · refine .inr ⟨ma, mb, ?_, ?_, h5⟩ <;>
          simp [buildMask, hef, Except.instMonad, Bind.bind, Except.bind, h3, h4]

/-- C5: when `filter_rows` succeeds on the same filter list under both
logics, the rows selected with logic "and" (the full filtered table,
recorded in `last_result`) form a sublist — in particular a subset — of
the rows selected with logic "or", and the reported `row_count` is no
larger. -/
theorem c5_and_selects_subset_of_or (env : Env) (st : State) (df : DataFrame)
    (fs : List Filter) (limit : Int) (ra rb : FilterOk)
    (hdf : st.df = some df)
    (ha : (filter_rows env st fs "and" limit).1 = .ok ra)
    (hb : (filter_rows env st fs "or" limit).1 = .ok rb) :
    ∃ outA outB,
      (filter_rows env st fs "and" limit).2.last_result = some outA ∧
      (filter_rows env st fs "or" limit).2.last_result = some outB ∧
      outA.rows.Sublist outB.rows ∧ ra.row_count ≤ rb.row_count := by
  unfold filter_rows at ha hb ⊢
  simp only [hdf] at ha hb ⊢
  rw [if_neg (by decide : ¬("and" ≠ "and" ∧ "and" ≠ "or"))] at ha ⊢
  rw [if_neg (by decide : ¬("or" ≠ "and" ∧ "or" ≠ "or"))] at hb ⊢
  rcases buildMask_and_or env df fs none none trivial with
    ⟨e, h3, h4⟩ | ⟨ma, mb, h3, h4, h5⟩
  · rw [h3] at ha; exact absurd ha (by simp)
  · rw [h3] at ha ⊢
    rw [h4] at hb ⊢
    cases ma with
    | none =>
      cases mb with
      | some _ => exact h5.elim
      | none =>
        have hra : ({ row_count := df.rows.length, rows := _df_to_rows df limit } : FilterOk) = ra := Except.ok.inj ha
        have hrb : ({ row_count := df.rows.length, rows := _df_to_rows df limit } : FilterOk) = rb := Except.ok.inj hb
        exact ⟨df, df, rfl, rfl, List.Sublist.refl _,
          by rw [← hra, ← hrb]⟩
    | some a' =>
      cases mb with
      | none => exact h5.elim
      | some b' =>
        have hra : ({ row_count := (applyMaskDf df a').rows.length, rows := _df_to_rows (applyMaskDf df a') limit } : FilterOk) = ra := Except.ok.inj ha
        have hrb : ({ row_count := (applyMaskDf df b').rows.length, rows := _df_to_rows (applyMaskDf df b') limit } : FilterOk) = rb := Except.ok.inj hb
        have hsub : (applyMaskDf df a').rows.Sublist (applyMaskDf df b').rows :=
          maskFilter_sublist a' b' df.rows h5
        exact ⟨applyMaskDf df a', applyMaskDf df b', rfl, rfl, hsub,
          by rw [← hra, ← hrb]; exact hsub.length_le⟩

/-- C5, witness: two equality filters over the scenario table — AND
selects nothing, OR selects everything. -/
theorem c5_and_selects_subset_of_or_witness :
    (filter_rows env0 st0
        [⟨some "Status", some "==", .scalar (.str "Open"), false⟩,
         ⟨some "Status", some "==", .scalar (.str "Closed"), false⟩] "and" 200).1
      = .ok { row_count := 0, rows := [] } ∧
    (filter_rows env0 st0
        [⟨some "Status", some "==", .scalar (.str "Open"), false⟩,
         ⟨some "Status", some "==", .scalar (.str "Closed"), false⟩] "or" 200).1
      = .ok { row_count := 3, rows := df0.rows } ∧
    ∃ outA outB,
      (filter_rows env0 st0
          [⟨some "Status", some "==", .scalar (.str "Open"), false⟩,
           ⟨some "Status", some "==", .scalar (.str "Closed"), false⟩] "and" 200).2.last_result
        = some outA ∧
      (filter_rows env0 st0
          [⟨some "Status", some "==", .scalar (.str "Open"), false⟩,
           ⟨some "Status", some "==", .scalar (.str "Closed"), false⟩] "or" 200).2.last_result
        = some outB ∧
      outA.rows.Sublist outB.rows ∧
      (0 : Nat) ≤ 3 :=
  ⟨by decide, by decide,
    c5_and_selects_subset_of_or env0 st0 df0
      [⟨some "Status", some "==", .scalar (.str "Open"), false⟩,
       ⟨some "Status", some "==", .scalar (.str "Closed"), false⟩] 200
      { row_count := 0, rows := [] } { row_count := 3, rows := df0.rows }
      rfl (by decide) (by decide)⟩

/-! ## Claim C7: string operators — null handling and case folding -/

theorem getD_map {α β : Type} (f : α → β) (d : α) : ∀ (l : List α) (i : Nat),
    (l.map f).getD i (f d) = f (l.getD i d)
  | [], _ => rfl
  | _ :: _, 0 => rfl
  | _ :: as, i + 1 => getD_map f d as i

/-- C7: for every string-operator filter (`contains`, `startswith`,
`endswith`), evaluation succeeds (for `contains`, whenever the —
possibly lowered — needle is a valid regular expression), a null cell
always yields "no match" (`false`) rather than raising, and when
`case_sensitive` is false the mask is the plain operator applied to the
case-folded column and the case-folded needle: both sides are lowered
before the operator. -/
theorem c7_string_ops_nulls_and_casefold (env : Env) (op : String)
    (cells : List Value) (val : FilterVal) (cs : Bool)
    (hop : op = "contains" ∨ op = "startswith" ∨ op = "endswith")
    (hre : op = "contains" →
      env.reValid (if cs then pyStrF val else lowerStr (pyStrF val)) = true) :
    (∃ m, evalStrFilter env op cells val cs = .ok m ∧
      m.length = cells.length ∧
      ∀ i, cells.getD i .null = .null → m.getD i false = false) ∧
    (cs = false →
      evalStrFilter env op cells val false
        = strOpMask env op (lowerStr (pyStrF val))
            ((cells.map toStringCell).map (Option.map lowerStr))) := by
  have key : ∀ (g : String → Bool) (s : List Value) (low : Bool),
      ∀ i, s.getD i .null = .null →
        (((if low then (s.map toStringCell).map (Option.map lowerStr)
           else s.map toStringCell)).map (naApply g)).getD i false = false := by
    intro g s low i hs
    cases low
    · simp only [Bool.false_eq_true, if_false]
      have h1 : (List.map (naApply g) (s.map toStringCell)).getD i false
          = naApply g ((s.map toStringCell).getD i none) :=
        getD_map (naApply g) none (s.map toStringCell) i
      rw [h1]
      have h3 : (List.map toStringCell s).getD i none
          = toStringCell (s.getD i .null) := getD_map toStringCell .null s i
      rw [h3, hs]
      rfl
    · simp only [if_true]
      have h1 : (List.map (naApply g)
            ((s.map toStringCell).map (Option.map lowerStr))).getD i false
          = naApply g (((s.map toStringCell).map (Option.map lowerStr)).getD i none) :=
        getD_map (naApply g) none ((s.map toStringCell).map (Option.map lowerStr)) i
      rw [h1]
      have h2 : ((s.map toStringCell).map (Option.map lowerStr)).getD i none
          = Option.map lowerStr ((List.map toStringCell s).getD i none) :=
        getD_map (Option.map lowerStr) none (s.map toStringCell) i
      rw [h2]
      have h3 : (List.map toStringCell s).getD i none
          = toStringCell (s.getD i .null) := getD_map toStringCell .null s i
      rw [h3, hs]
      rfl
  constructor
  · rcases hop with rfl | rfl | rfl
    · -- contains
      cases cs
      · have hre2 : env.reValid (lowerStr (pyStrF val)) = true := hre rfl
        refine ⟨((cells.map toStringCell).map (Option.map lowerStr)).map
            (naApply (fun t => env.reSearch (lowerStr (pyStrF val)) t)),
            ?_, by simp, ?_⟩
        · simp [evalStrFilter, strOpMask, hre2]
        · intro i hi
          exact key (fun t => env.reSearch (lowerStr (pyStrF val)) t) cells true i hi
      · have hre2 : env.reValid (pyStrF val) = true := hre rfl
        refine ⟨(cells.map toStringCell).map
            (naApply (fun t => env.reSearch (pyStrF val) t)), ?_, by simp, ?_⟩
        · simp [evalStrFilter, strOpMask, hre2]
        · intro i hi
          exact key (fun t => env.reSearch (pyStrF val) t) cells false i hi
    · -- startswith
      cases cs
      · refine ⟨((cells.map toStringCell).map (Option.map lowerStr)).map
            (naApply (fun t => strStartsWith t (lowerStr (pyStrF val)))),
            rfl, by simp, ?_⟩
        intro i hi
        exact key (fun t => strStartsWith t (lowerStr (pyStrF val))) cells true i hi
      · refine ⟨(cells.map toStringCell).map
            (naApply (fun t => strStartsWith t (pyStrF val))), rfl, by simp, ?_⟩
        intro i hi
        exact key (fun t => strStartsWith t (pyStrF val)) cells false i hi
    · -- endswith
      cases cs
      · refine ⟨((cells.map toStringCell).map (Option.map lowerStr)).map
            (naApply (fun t => strEndsWith t (lowerStr (pyStrF val)))),
            rfl, by simp, ?_⟩
        intro i hi
        exact key (fun t => strEndsWith t (lowerStr (pyStrF val))) cells true i hi
      · refine ⟨(cells.map toStringCell).map
            (naApply (fun t => strEndsWith t (pyStrF val))), rfl, by simp, ?_⟩
        intro i hi
        exact key (fun t => strEndsWith t (pyStrF val)) cells false i hi
  · intro _
    rfl

/-- C7, witness: `startswith` over a column holding a null. -/
theorem c7_string_ops_nulls_and_casefold_witness :
    (∃ m, evalStrFilter env0 "startswith" [.str "Ab", .null] (.scalar (.str "a")) false
        = .ok m ∧
      m.length = ([.str "Ab", .null] : List Value).length ∧
      ∀ i, ([.str "Ab", .null] : List Value).getD i .null = .null →
        m.getD i false = false) ∧
    (false = false →
      evalStrFilter env0 "startswith" [.str "Ab", .null] (.scalar (.str "a")) false
        = strOpMask env0 "startswith" (lowerStr (pyStrF (.scalar (.str "a"))))
            ((([.str "Ab", .null] : List Value).map toStringCell).map
              (Option.map lowerStr))) :=
  c7_string_ops_nulls_and_casefold env0 "startswith" [.str "Ab", .null]
    (.scalar (.str "a")) false (Or.inr (Or.inl rfl)) (by decide)

/-! ## Claim C8: null group keys are kept; output column naming -/

theorem mem_uniqAux {α : Type} [DecidableEq α] :
    ∀ (l seen : List α) (x : α), x ∈ l → x ∉ seen → x ∈ uniqAux seen l := by
  intro l
  induction l with
  | nil => intro seen x hx _; exact absurd hx (List.not_mem_nil x)
  | cons a as ih =>
    intro seen x hx hseen
    by_cases ha : a ∈ seen
    · rw [uniqAux, if_pos ha]
      rcases List.mem_cons.mp hx with rfl | hx2
      · exact absurd ha hseen
      · exact ih seen x hx2 hseen
    · rw [uniqAux, if_neg ha]
      rcases List.mem_cons.mp hx with rfl | hx2
      · exact List.mem_cons_self _ _
      · by_cases hxa : x = a
        · subst hxa; exact List.mem_cons_self _ _
        · exact List.mem_cons_of_mem _ (ih (a :: seen) x hx2 (by simp [hxa, hseen]))

theorem mem_uniqList {α : Type} [DecidableEq α] (l : List α) (x : α) (hx : x ∈ l) :
    x ∈ uniqList l :=
  mem_uniqAux l [] x hx (List.not_mem_nil x)

/-- C8: on every successful `groupby_aggregate` call, the result table
(recorded in `last_result`) names its columns as the group columns
followed by one `<column>_<function>` column per aggregation (in
aggregation-map order), and every source row's group key — including
keys containing null — appears as the group-column prefix of some
output row: null keys form their own group rather than being
dropped. -/
theorem c8_groupby_null_groups_and_column_naming (st : State) (df : DataFrame)
    (gcols : List String) (aggs : List Agg) (limit : Int) (r : GroupOk)
    (hdf : st.df = some df)
    (hok : (groupby_aggregate st gcols aggs limit).1 = .ok r) :
    ∃ out am,
      (groupby_aggregate st gcols aggs limit).2.last_result = some out ∧
      buildAggMap df aggs [] = .ok am ∧
      out.headers = gcols ++ (aggPairs am).map (fun p => p.1 ++ "_" ++ p.2) ∧
      ∀ row ∈ df.rows, ∃ orow ∈ out.rows,
        orow.take gcols.length = keyOf (gcols.map df.colIdx) row := by
  unfold groupby_aggregate at hok ⊢
  simp only [hdf] at hok ⊢
  by_cases hmiss : gcols.filter (fun c => c ∉ df.headers) ≠ []
  · rw [if_pos hmiss] at hok; exact absurd hok (by simp)
  · rw [if_neg hmiss] at hok ⊢
    rcases ham : buildAggMap df aggs [] with e | am
    · rw [ham] at hok; exact absurd hok (by simp)
    · rw [ham] at hok
      by_cases hg : gcols = []
      · subst hg; simp at hok
      · simp only [hg, if_false] at hok ⊢
        refine ⟨doGroup df gcols am, am, rfl, rfl, rfl, ?_⟩
        intro row hrow
        have hk : keyOf (gcols.map df.colIdx) row
            ∈ uniqList (df.rows.map (keyOf (gcols.map df.colIdx))) :=
          mem_uniqList _ _ (List.mem_map_of_mem _ hrow)
        have htake : ∀ (k rest : List Value), k.length = gcols.length →
            (k ++ rest).take gcols.length = k := by
          intro k rest hl
          rw [← hl]
          exact List.take_left k rest
        refine ⟨_, List.mem_map_of_mem _ hk, ?_⟩
        exact htake (keyOf (gcols.map df.colIdx) row) _ (by simp [keyOf])

/-- C8, witness: grouping `df2` (one null `Status`) by `Status` with a
count aggregation: both keys — `"Open"` and null — appear, and the
headers are `["Status", "Amount_count"]`. -/
theorem c8_groupby_null_groups_witness :
    (groupby_aggregate stG ["Status"] [⟨some "Amount", some "count"⟩] 200).1
        = .ok { row_count := 2, rows := [[.str "Open", .int 1], [.null, .int 1]] } ∧
      ∃ out am,
        (groupby_aggregate stG ["Status"]
            [⟨some "Amount", some "count"⟩] 200).2.last_result = some out ∧
        buildAggMap df2 [⟨some "Amount", some "count"⟩] [] = .ok am ∧
        out.headers = ["Status"] ++ (aggPairs am).map (fun p => p.1 ++ "_" ++ p.2) ∧
        ∀ row ∈ df2.rows, ∃ orow ∈ out.rows,
          orow.take (["Status"] : List String).length
            = keyOf ((["Status"] : List String).map df2.colIdx) row :=
  ⟨by decide,
    c8_groupby_null_groups_and_column_naming stG df2 ["Status"]
      [⟨some "Amount", some "count"⟩] 200
      { row_count := 2, rows := [[.str "Open", .int 1], [.null, .int 1]] }
      rfl (by decide)⟩

end CsvAnalyst
